import Mathlib

/-!
Verification of the financial-statement normalization and extraction
pipeline of the aksmes repository (src/.history/app_20250323223652.py).

The development shallowly embeds the pandas tables the program works on:
a table is a list of column labels, a list of row-index labels, and a
row-major list of cells.  Cells are strings, exact rationals (modelling
Python floats), timestamps (modelling pandas Timestamp values produced
by pd.to_datetime), or the missing value NaN/None.

Embedded functions, each translated line by line from the source:
  convert_em_to_sina_format   (shape normalizer, lines 1266-1382)
  get_financial_metrics       (metrics extractor, lines 184-314)
  growth_series               (YoY growth comprehension inside
                               plot_financial_metrics, lines 334-346)
  get_financial_ratios        (ratio calculator, lines 510-723)
  download_financial_reports  (per-statement download loop, lines 79-129)
-/

namespace Aksmes

/-- A cell of a pandas table: a string, a numeric value (Python float,
modelled exactly as a rational), a pandas Timestamp (keyed as the number
YYYYMMDD), or the missing value (NaN / None). -/
inductive Cell where
  | str (s : String)
  | num (q : ℚ)
  | date (k : ℕ)
  | null
  deriving DecidableEq, Repr, Inhabited

/-- A pandas DataFrame: column labels, row-index labels and row-major
cells.  Column and index labels are themselves cells because pandas
allows arbitrary labels (the transposed branch of the normalizer turns
first-column cell values into column labels). -/
structure DataFrame where
  cols : List Cell
  index : List Cell
  rows : List (List Cell)
  deriving DecidableEq, Repr, Inhabited

/-- The empty frame pd.DataFrame(). -/
def emptyDF : DataFrame := ⟨[], [], []⟩

/-- DataFrame.empty: true when the frame has no rows or no columns. -/
def DataFrame.isEmpty (df : DataFrame) : Bool :=
  df.rows.isEmpty || df.cols.isEmpty

/-- The default RangeIndex 0,1,2,... of a freshly built frame; its
labels are Python ints, which never compare equal to string labels. -/
def rangeIndex (n : ℕ) : List Cell :=
  (List.range n).map (fun i => Cell.num i)

/-- Build a frame with the default RangeIndex. -/
def mkDF (cols : List Cell) (rows : List (List Cell)) : DataFrame :=
  ⟨cols, rangeIndex rows.length, rows⟩

/-! String helpers shared by the embedded functions. -/

/-- Whether the character list p occurs contiguously inside l.  Used to
model the Python substring test and pandas str.contains on a literal
pattern. -/
def infixB (p : List Char) : List Char → Bool
  | [] => p.isEmpty
  | a :: t => p.isPrefixOf (a :: t) || infixB p t

/-- Python "pat in s" / str.contains(pat) for a literal pattern. -/
def strContains (s pat : String) : Bool :=
  infixB pat.toList s.toList

/-- Repr of a numeric cell under str(), exact for integral floats; the
development never stringifies a non-integral numeric cell. -/
def ratRepr (q : ℚ) : String :=
  if q.den = 1 then toString q.num ++ ".0"
  else toString q.num ++ "/" ++ toString q.den

/-- Python str() of a cell as pandas astype(str) produces it: strings
stay themselves, NaN renders as "nan".  Timestamp cells are never
stringified by the embedded paths. -/
def pyStr (c : Cell) : String :=
  match c with
  | .str s => s
  | .num q => ratRepr q
  | .date k => toString k
  | .null => "nan"

/-- Digit value of a character, for the numeric parsers. -/
def digitVal (c : Char) : ℕ := c.toNat - '0'.toNat

/-- Fold a digit list into a natural number. -/
def digitsToNat (l : List Char) : ℕ :=
  l.foldl (fun acc c => 10 * acc + digitVal c) 0

/-- Parse an unsigned decimal literal digits[.digits] into an exact
rational, the grammar accepted by Python float() and by the pandas
numeric parser for the inputs this development exercises (no exponent
or inf/nan spellings appear in them). -/
def parseUnsignedFloat (l : List Char) : Option ℚ :=
  let intPart := l.takeWhile (fun c => c.isDigit)
  let rest := l.dropWhile (fun c => c.isDigit)
  match rest with
  | [] =>
    if intPart.isEmpty then none
    else some (digitsToNat intPart)
  | '.' :: frac =>
    if frac.all (fun c => c.isDigit) && !(intPart.isEmpty && frac.isEmpty) then
      some ((digitsToNat intPart : ℚ) +
        (digitsToNat frac : ℚ) / ((10 : ℚ) ^ frac.length))
    else none
  | _ => none

/-- Whitespace as Python float() strips it. -/
def isSpaceChar (c : Char) : Bool :=
  c = ' ' || c = '\t' || c = '\n' || c = '\r'

/-- Strip leading and trailing whitespace from a character list. -/
def trimChars (l : List Char) : List Char :=
  ((l.dropWhile isSpaceChar).reverse.dropWhile isSpaceChar).reverse

/-- Python float() over a character list: strip surrounding
whitespace, optional sign, then a decimal literal; anything else
raises ValueError, modelled as none. -/
def pyFloatL (l : List Char) : Option ℚ :=
  match trimChars l with
  | '+' :: t => parseUnsignedFloat t
  | '-' :: t => (parseUnsignedFloat t).map (fun q => -q)
  | t => parseUnsignedFloat t

/-- Python float() on a string. -/
def pyFloat (s : String) : Option ℚ :=
  pyFloatL s.toList

/-- The per-cell numeric coercion of the metrics-extraction path,
pd.to_numeric(x, errors=coerce) (app_20250323223652.py lines 279-280):
numeric cells pass through, missing stays missing, strings are parsed
by the pandas numeric grammar, which does NOT accept thousands
separators; failures coerce to NaN (none), never an exception. -/
def toNumericCoerce (c : Cell) : Option ℚ :=
  match c with
  | .num q => some q
  | .str s => pyFloat s
  | .date _ => none
  | .null => none

/-- Coercion result written back as a cell, as pd.to_numeric does for a
whole column. -/
def toNumericCell (c : Cell) : Cell :=
  match toNumericCoerce c with
  | some q => .num q
  | none => .null

/-- The per-cell numeric coercion of the ratio-calculation path,
float(str(value).replace(",", "")) guarded by pd.notna (lines 691-697):
missing values are filtered out by pd.notna before conversion; numeric
cells round-trip through str() exactly; strings have commas stripped
and are parsed by float(), whose ValueError is caught by the caller
(modelled as none). -/
def ratioCoerce (c : Cell) : Option ℚ :=
  match c with
  | .null => none
  | .num q => some q
  | .date _ => none
  | .str s => pyFloatL (s.toList.filter (fun c => c ≠ ','))

/-! Column access helpers. -/

/-- Index of the first column carrying a given label, the behaviour of
a pandas label lookup on unique labels. -/
def colIdx (cols : List Cell) (label : Cell) : Option ℕ :=
  cols.findIdx? (fun c => c = label)

/-- Value of a row Series at a column label: the cell at the first
position carrying that label. -/
def lookupRow (cols row : List Cell) (label : Cell) : Cell :=
  match colIdx cols label with
  | some j => row.getD j .null
  | none => .null

/-- Values of the column carrying a given label. -/
def colByLabel (df : DataFrame) (label : Cell) : List Cell :=
  match colIdx df.cols label with
  | some j => df.rows.map (fun r => r.getD j .null)
  | none => []

/-- Values of the first column, df.iloc[:, 0]. -/
def firstColVals (df : DataFrame) : List Cell :=
  df.rows.map (fun r => r.getD 0 .null)

/-- Worker of uniqueFirst carrying the values already emitted. -/
def uniqueFirstAux (seen : List Cell) : List Cell → List Cell
  | [] => []
  | a :: t =>
    if seen.any (fun x => x = a) then uniqueFirstAux seen t
    else a :: uniqueFirstAux (a :: seen) t

/-- Series.unique(): the distinct values in order of first occurrence. -/
def uniqueFirst (l : List Cell) : List Cell :=
  uniqueFirstAux [] l

/-! The shape normalizer convert_em_to_sina_format (lines 1266-1382). -/

/-- The date-column test of the normalizer (line 1293): a column label
whose text contains DATE, 日期, 报告期 or 报告日.  Labels that are not
strings never carry those keywords. -/
def isDateKwCol (c : Cell) : Bool :=
  match c with
  | .str s =>
    strContains s "DATE" || strContains s "日期" ||
      strContains s "报告期" || strContains s "报告日"
  | _ => false

/-- The item-column test of the normalizer (line 1297): a column label
containing 项目, ITEM or 科目. -/
def isItemKwCol (c : Cell) : Bool :=
  match c with
  | .str s => strContains s "项目" || strContains s "ITEM" || strContains s "科目"
  | _ => false

/-- Full match against the date pattern of the transposed-shape check
(line 1285), the regex anchored alternation of eight digits or
digits 4-2-2 separated by dashes. -/
def matchDatePattern (s : String) : Bool :=
  let l := s.toList
  (l.length = 8 && l.all (fun c => c.isDigit)) ||
  (match l with
   | [a, b, c, d, '-', e, f, '-', g, h] =>
     [a, b, c, d, e, f, g, h].all (fun x => x.isDigit)
   | _ => false)

/-- The stringified first-column sample of the first five rows
(line 1288), df.iloc[:5, 0].astype(str).tolist(). -/
def sampleValues (df : DataFrame) : List String :=
  (df.rows.take 5).map (fun r => pyStr (r.getD 0 .null))

/-- The three raw shapes the normalizer distinguishes, plus the empty
input it returns unchanged-as-empty; a tagged rendering of the branch
conditions at lines 1268, 1301, 1360 and 1379. -/
inductive Shape where
  | empty
  | long
  | transposed
  | standard
  deriving DecidableEq, Repr

/-- The shape detection of convert_em_to_sina_format: the long branch
fires when a REPORT_DATE column or any date-keyword column is present;
otherwise the transposed branch fires when every sampled first-column
value other than the nan/None renderings matches the date pattern
(vacuously true when the filtered sample is empty); otherwise the
table is taken as standard. -/
def detect_shape (df : DataFrame) : Shape :=
  if df.isEmpty then .empty
  else if df.cols.any (fun c => c = .str "REPORT_DATE") ||
      !(df.cols.filter isDateKwCol).isEmpty then .long
  else if ((sampleValues df).filter
      (fun v => !(v = "nan" || v = "None"))).all matchDatePattern then
    .transposed
  else .standard

/-- The item column of the long branch (lines 1306-1323): the first
keyword-named item column if any; otherwise the first non-date column
whose first ten stringified values contain an accounting keyword;
otherwise the first non-date column; none when the date column is the
only column. -/
def longItemCol (df : DataFrame) : Option Cell :=
  let dateCols := df.cols.filter isDateKwCol
  let dateCol := dateCols.headD (.str "REPORT_DATE")
  let itemCols := df.cols.filter isItemKwCol
  match itemCols.head? with
  | some c => some c
  | none =>
    let nonDateCols := df.cols.filter (fun c => c ≠ dateCol)
    if nonDateCols.isEmpty then none
    else
      match nonDateCols.find? (fun c =>
        ((colByLabel df c).take 10).any (fun v =>
          let s := pyStr v
          strContains s "收入" || strContains s "利润" ||
            strContains s "资产" || strContains s "负债")) with
      | some c => some c
      | none => nonDateCols.head?

/-- The date key written as a pivot column (lines 1334-1336):
str(date) with dashes removed, truncated to eight characters. -/
def pivotDateStr (date : Cell) : String :=
  List.asString (((pyStr date).toList.filter (fun c => c ≠ '-')).take 8)

/-- Set a cell of the pivot frame at (row position, column label),
creating the column filled with NaN first when absent, the behaviour
of pivot_df.loc[mask, date_str] = value. -/
def setCell (df : DataFrame) (i : ℕ) (label : Cell) (v : Cell) : DataFrame :=
  match colIdx df.cols label with
  | some j => { df with rows := df.rows.modify (fun r => r.set j v) i }
  | none =>
    let extended := df.rows.map (fun r => r ++ [Cell.null])
    { df with cols := df.cols ++ [label],
              rows := extended.modify (fun r => r.set df.cols.length v) i }

/-- One date iteration of the pivot loop (lines 1333-1352): when a
value column exists, write the first matching value of each item into
the column named by the truncated date. -/
def pivotDateStep (df : DataFrame) (dateCol itemCol : Cell)
    (items : List Cell) (valueCols : List Cell)
    (acc : DataFrame) (date : Cell) : DataFrame :=
  match valueCols.head? with
  | none => acc
  | some valueCol =>
    let dateStr := pivotDateStr date
    let dateData := df.rows.filter
      (fun r => lookupRow df.cols r dateCol = date)
    (items.enum).foldl (fun a it =>
      match dateData.find? (fun r => lookupRow df.cols r itemCol = it.2) with
      | some r => setCell a it.1 (.str dateStr) (lookupRow df.cols r valueCol)
      | none => a) acc

/-- The pivot of the long branch (lines 1327-1352): a frame whose first
column is the unique item names, then one column per unique date. -/
def pivotLoop (df : DataFrame) (dateCol itemCol : Cell) : DataFrame :=
  let items := uniqueFirst (colByLabel df itemCol)
  let dates := uniqueFirst (colByLabel df dateCol)
  let valueCols := df.cols.filter (fun c => !(c = dateCol || c = itemCol))
  let init : DataFrame :=
    ⟨[itemCol], rangeIndex items.length, items.map (fun it => [it])⟩
  dates.foldl (pivotDateStep df dateCol itemCol items valueCols) init

/-- The long-branch transform (lines 1301-1358). -/
def longTransform (df : DataFrame) : DataFrame :=
  let dateCols := df.cols.filter isDateKwCol
  let dateCol := dateCols.headD (.str "REPORT_DATE")
  match longItemCol df with
  | none => emptyDF
  | some itemCol => pivotLoop df dateCol itemCol

/-- The rows of the transposed frame: one row per original non-first
column, its label followed by the cells of that column. -/
def transposeRows (rows : List (List Cell)) : List Cell → ℕ → List (List Cell)
  | [], _ => []
  | c :: rest, j =>
    (c :: rows.map (fun r => r.getD j .null)) :: transposeRows rows rest (j + 1)

/-- The transposed-branch transform (lines 1360-1377): set the first
column as index, transpose, reset the index and rename the index
column 项目; the old first-column values become the column labels. -/
def transposedTransform (df : DataFrame) : DataFrame :=
  ⟨.str "项目" :: firstColVals df,
   rangeIndex (df.cols.drop 1).length,
   transposeRows df.rows (df.cols.drop 1) 1⟩

/-- convert_em_to_sina_format (lines 1266-1382): empty input gives an
empty frame, a detected long shape is pivoted, a detected transposed
shape is transposed, and a standard table is returned unchanged. -/
def convert_em_to_sina_format (df : DataFrame) : DataFrame :=
  match detect_shape df with
  | .empty => emptyDF
  | .long => longTransform df
  | .transposed => transposedTransform df
  | .standard => df

/-! The metrics extractor get_financial_metrics (lines 184-314). -/

/-- pandas str.contains(pat, na=False) on one cell: non-string cells
(including the missing value) never match. -/
def cellContains (c : Cell) (pat : String) : Bool :=
  match c with
  | .str s => strContains s pat
  | _ => false

/-- The explicit item-column candidates of the extractor (line 198). -/
def project_col_candidates : List String :=
  ["项目", "报表项目", "科目", "会计科目", "项目名称"]

/-- The accounting terms probed against the first column when no
candidate column is present (line 210). -/
def project_terms : List String :=
  ["营业收入", "营业总收入", "营业利润", "净利润", "利润总额"]

/-- Search of the first row for a date-like string, the transpose test
of the extractor (line 220): the regex 20, two digits, one of dash,
slash or 年, then a digit, found anywhere in a string cell. -/
def metricDateAt : List Char → Bool
  | '2' :: '0' :: a :: b :: s :: d :: _ =>
    a.isDigit && b.isDigit && (s = '-' || s = '/' || s = '年') && d.isDigit
  | _ => false

/-- Whether the date regex of the extractor matches anywhere in l. -/
def hasMetricDateL : List Char → Bool
  | [] => false
  | c :: t => metricDateAt (c :: t) || hasMetricDateL t

/-- re.search of the extractor date pattern over a string. -/
def hasMetricDate (s : String) : Bool :=
  hasMetricDateL s.toList

/-- The transpose of the extractor (lines 224-231): transpose, take
the first row (the old first column) as column labels, drop it, reset
the index and rename the index column 日期. -/
def metricsTranspose (df : DataFrame) : DataFrame :=
  ⟨.str "日期" :: firstColVals df,
   rangeIndex (df.cols.drop 1).length,
   transposeRows df.rows (df.cols.drop 1) 1⟩

/-- The preprocessing of the extractor (lines 189-236): stringify the
column labels and the first column, then find the item column by the
candidate names, by accounting terms in the first column, by the
transpose fallback, or default to the first column. -/
def metricsPrep (df : DataFrame) : DataFrame × Cell :=
  let d1 : DataFrame := { df with cols := df.cols.map (fun c => .str (pyStr c)) }
  let d2 : DataFrame :=
    { d1 with rows := d1.rows.map (fun r => r.set 0 (.str (pyStr (r.getD 0 .null)))) }
  match project_col_candidates.find? (fun c => d2.cols.any (fun x => x = .str c)) with
  | some c => (d2, .str c)
  | none =>
    if project_terms.any (fun t => (firstColVals d2).any (fun c => cellContains c t)) then
      (d2, d2.cols.getD 0 .null)
    else
      let firstRow := d2.rows.getD 0 []
      if firstRow.any (fun c =>
          match c with
          | .str s => hasMetricDate s
          | _ => false) then
        (metricsTranspose d2, .str "日期")
      else (d2, d2.cols.getD 0 .null)

/-- The revenue keyword list of the extractor (line 240). -/
def revenue_patterns : List String :=
  ["营业收入", "营业总收入", "主营业务收入", "主营收入", "总收入"]

/-- The net-profit keyword list of the extractor (line 249). -/
def profit_patterns : List String :=
  ["净利润", "归属于母公司所有者的净利润", "归母净利润", "归属于母公司股东的净利润"]

/-- The tiered row lookup of the extractor (lines 241-253): try the
patterns one after the other; the first pattern that matches any row
wins, and within it the first matching row in table order is taken. -/
def findRowTiered (df : DataFrame) (pcol : Cell) (patterns : List String) :
    Option (List Cell) :=
  let j := (colIdx df.cols pcol).getD 0
  patterns.findSome? (fun p =>
    df.rows.find? (fun r => cellContains (r.getD j .null) p))

/-- The branch of the extractor taken when a 日期 column is present
(lines 263-266): the whole revenue and profit row Series are assigned
as columns of a frame indexed like the statement, so pandas aligns
them by index label against the statement row index; the row Series
are indexed by column labels, so every label misses and yields the
missing value. -/
def metricsDateBranch (df : DataFrame) (rrow prow : List Cell) :
    List Cell × List Cell × List Cell :=
  let dates := colByLabel df (.str "日期")
  let align := fun (row : List Cell) => df.index.map (fun ℓ => lookupRow df.cols row ℓ)
  (dates, align rrow, align prow)

/-- The branch of the extractor taken when the dates are column labels
(lines 267-294): for every non-item column coerce both cells with
pd.to_numeric and keep the period only when both coerce. -/
def metricsElseBranch (df : DataFrame) (pcol : Cell) (rrow prow : List Cell) :
    List Cell × List Cell × List Cell :=
  let dateCols := df.cols.filter (fun c => c ≠ pcol)
  let triples := dateCols.filterMap (fun c =>
    match toNumericCoerce (lookupRow df.cols rrow c),
          toNumericCoerce (lookupRow df.cols prow c) with
    | some a, some b => some (c, Cell.num a, Cell.num b)
    | _, _ => none)
  (triples.map (fun t => t.1), triples.map (fun t => t.2.1),
   triples.map (fun t => t.2.2))

/-- Key of a date string in one of the two provider encodings,
YYYYMMDD or YYYY-MM-DD, as the number YYYYMMDD. -/
def parseDateKey (s : String) : Option ℕ :=
  match s.toList with
  | [a, b, c, d, e, f, g, h] =>
    if [a, b, c, d, e, f, g, h].all Char.isDigit then
      some (digitsToNat [a, b, c, d, e, f, g, h])
    else none
  | [a, b, c, d, '-', e, f, '-', g, h] =>
    if [a, b, c, d, e, f, g, h].all Char.isDigit then
      some (digitsToNat [a, b, c, d, e, f, g, h])
    else none
  | _ => none

/-- pd.to_datetime(x, errors=coerce) restricted to the two date string
encodings the providers emit; other values coerce to NaT here.  pandas
accepts further encodings (bare years, epoch integers); none of them
is exercised by this development. -/
def pdToDatetime (c : Cell) : Option ℕ :=
  match c with
  | .date k => some k
  | .str s => parseDateKey s
  | _ => none

/-- Sort key of a converted 日期 cell; NaT sorts as none. -/
def dateSortKey (c : Cell) : Option ℕ :=
  match c with
  | .date k => some k
  | _ => none

/-- Descending comparison with the missing key last, the order of
sort_values(ascending=False) with the default na_position. -/
def keyGt : Option ℕ → Option ℕ → Bool
  | some a, some b => a > b
  | some _, none => true
  | none, _ => false

/-- Insertion into a descending-sorted list of keyed metric rows. -/
def insertDesc (x : Option ℕ × (Cell × Cell × Cell)) :
    List (Option ℕ × (Cell × Cell × Cell)) →
    List (Option ℕ × (Cell × Cell × Cell))
  | [] => [x]
  | y :: t => if keyGt x.1 y.1 then x :: y :: t else y :: insertDesc x t

/-- Descending sort of keyed metric rows; agrees with the pandas sort
on the distinct keys the development exercises. -/
def sortDesc : List (Option ℕ × (Cell × Cell × Cell)) →
    List (Option ℕ × (Cell × Cell × Cell))
  | [] => []
  | x :: t => insertDesc x (sortDesc t)

/-- The final sort of the extractor (lines 305-310): convert the 日期
column with pd.to_datetime(errors=coerce) and sort the rows by it,
most recent first. -/
def metricsSort (dates rev prof : List Cell) :
    List Cell × List Cell × List Cell :=
  let newDates := dates.map (fun c =>
    match pdToDatetime c with
    | some k => Cell.date k
    | none => Cell.null)
  let keyed := (newDates.zip (rev.zip prof)).map (fun t => (dateSortKey t.1, t))
  let ts := (sortDesc keyed).map (fun t => t.2)
  (ts.map (fun t => t.1), ts.map (fun t => t.2.1), ts.map (fun t => t.2.2))

/-- get_financial_metrics (lines 184-314): returns the revenue list,
the net-profit list and the date list, or none in place of the
(None, None, None) soft failure. -/
def get_financial_metrics (df : DataFrame) :
    Option (List Cell × List Cell × List Cell) :=
  if df.isEmpty then none
  else
    let p := metricsPrep df
    let d2 := p.1
    let pcol := p.2
    match findRowTiered d2 pcol revenue_patterns,
          findRowTiered d2 pcol profit_patterns with
    | some rrow, some prow =>
      let b :=
        if d2.cols.any (fun c => c = .str "日期") then metricsDateBranch d2 rrow prow
        else metricsElseBranch d2 pcol rrow prow
      let dates := b.1
      let rev := b.2.1.map toNumericCell
      let prof := b.2.2.map toNumericCell
      if dates.isEmpty then none
      else
        let s := metricsSort dates rev prof
        some (s.2.1, s.2.2, s.1)
    | _, _ => none

/-! The YoY growth computation inside plot_financial_metrics. -/

/-- The growth comprehension of plot_financial_metrics (lines 334-346)
over a value column already in ascending date order: None for the
earliest period, then for each later period the percentage change from
the previous one, None when the previous value is exactly zero. -/
def growth_series (vals : List ℚ) : List (Option ℚ) :=
  Option.none :: (List.range (vals.length - 1)).map (fun k =>
    if vals.getD k 0 ≠ 0 then
      some ((vals.getD (k + 1) 0 / vals.getD k 0 - 1) * 100)
    else none)

/-! The ratio calculator get_financial_ratios (lines 510-723). -/

/-- One row of the ratio series; the three figures are stored divided
by 100000000 (亿元) exactly as the source appends them. -/
structure RatioEntry where
  date : String
  totalAssets : ℚ
  netEquity : ℚ
  netProfit : ℚ
  roa : Option ℚ
  roe : Option ℚ
  deriving DecidableEq, Repr

/-- The total-assets keyword list of the ratio path (line 574). -/
def asset_patterns : List String :=
  ["总资产", "资产总计", "资产总额", "资产负债表", "资产合计", "资产总和"]

/-- The net-equity keyword list of the ratio path (line 575). -/
def equity_patterns : List String :=
  ["所有者权益", "股东权益", "净资产", "所有者权益合计", "股东权益合计",
   "权益合计", "权益总计", "股东权益总计"]

/-- The net-profit keyword list of the ratio path (line 576), with the
two parenthesized entries written as the literal text their regex
groups match once the patterns are joined with the | of line 581. -/
def ratio_profit_patterns : List String :=
  ["净利润", "归属于母公司股东的净利润", "归属于上市公司股东的净利润",
   "利润总额", "净利", "利润", "净利润含少数股东损益", "净利润扣除少数股东损益"]

/-- The row lookup of the ratio path (lines 584-624): all keywords of
the list are joined into one alternation, so the first row whose first
cell contains ANY of them wins; only when no row matches at all is the
single fuzzy fallback keyword tried. -/
def findRowJoined (df : DataFrame) (patterns : List String)
    (fallback : String) : Option (List Cell) :=
  match df.rows.find? (fun r =>
      patterns.any (fun p => cellContains (r.getD 0 .null) p)) with
  | some r => some r
  | none => df.rows.find? (fun r => cellContains (r.getD 0 .null) fallback)

/-- The preprocessing of the ratio path (lines 527-567): stringify the
column labels and rebuild the frame with a stringified first column. -/
def ratioPrep (df : DataFrame) : DataFrame :=
  let d1 : DataFrame := { df with cols := df.cols.map (fun c => .str (pyStr c)) }
  { d1 with rows := d1.rows.map (fun r => r.set 0 (.str (pyStr (r.getD 0 .null)))) }

/-- Worker of dedupFirstStr carrying the values already emitted. -/
def dedupFirstStrAux (seen : List String) : List String → List String
  | [] => []
  | a :: t =>
    if seen.any (fun x => x = a) then dedupFirstStrAux seen t
    else a :: dedupFirstStrAux (a :: seen) t

/-- Distinct strings in order of first occurrence, modelling the pass
of a list through set(). -/
def dedupFirstStr (l : List String) : List String :=
  dedupFirstStrAux [] l

/-- Insertion into a descending-sorted list of strings. -/
def insertDescStr (x : String) : List String → List String
  | [] => [x]
  | y :: t => if y < x then x :: y :: t else y :: insertDescStr x t

/-- Descending lexicographic sort, modelling sorted(reverse=True) on
Python strings. -/
def sortDescStr : List String → List String
  | [] => []
  | x :: t => insertDescStr x (sortDescStr t)

/-- The common reporting periods of the ratio path (lines 532-540):
the period labels of both statements (everything after the first
column) intersected as sets and sorted most recent first. -/
def ratiosCommonDates (balance_sheet income_statement : DataFrame) : List String :=
  let bsDates := (balance_sheet.cols.drop 1).map pyStr
  let isDates := (income_statement.cols.drop 1).map pyStr
  sortDescStr (dedupFirstStr (bsDates.filter (fun d => isDates.any (fun x => x = d))))

/-- The value part of the per-period body of the ratio loop
(lines 686-712): skip the period when any of the three raw cells is
missing (pd.notna) or fails float conversion, otherwise build the
entry with the figures in 亿元 and with ROA and ROE, each None when
its denominator is exactly zero. -/
def ratioEntryOf (d : String) (av ev pv : Cell) : Option RatioEntry :=
  if av ≠ .null ∧ ev ≠ .null ∧ pv ≠ .null then
    match ratioCoerce av, ratioCoerce ev, ratioCoerce pv with
    | some ta, some nequity, some nprofit =>
      some { date := d,
             totalAssets := ta / 100000000,
             netEquity := nequity / 100000000,
             netProfit := nprofit / 100000000,
             roa := if ta ≠ 0 then some (nprofit / ta * 100) else none,
             roe := if nequity ≠ 0 then some (nprofit / nequity * 100) else none }
    | _, _, _ => none
  else none

/-- The per-period body of the ratio loop (lines 669-718): locate the
period column in each statement by its stringified label, read the
three row cells there, and build the entry via ratioEntryOf. -/
def ratioProcessDate (balance_sheet income_statement : DataFrame)
    (arow erow prow : List Cell) (d : String) : Option RatioEntry :=
  match (((balance_sheet.cols.drop 1).map pyStr).findIdx? (fun x => x = d)),
        (((income_statement.cols.drop 1).map pyStr).findIdx? (fun x => x = d)) with
  | some bi, some ii =>
    ratioEntryOf d
      (lookupRow balance_sheet.cols arow
        ((balance_sheet.cols.drop 1).getD bi .null))
      (lookupRow balance_sheet.cols erow
        ((balance_sheet.cols.drop 1).getD bi .null))
      (lookupRow income_statement.cols prow
        ((income_statement.cols.drop 1).getD ii .null))
  | _, _ => none

/-- get_financial_ratios (lines 510-723): none models the None the
source returns on empty input, no common period, a missing figure row,
or an empty result series. -/
def get_financial_ratios (balance_sheet income_statement : DataFrame) :
    Option (List RatioEntry) :=
  if balance_sheet.isEmpty || income_statement.isEmpty then none
  else
    let bs := ratioPrep balance_sheet
    let ist := ratioPrep income_statement
    let common := ratiosCommonDates bs ist
    if common.isEmpty then none
    else
      match findRowJoined bs asset_patterns "资产",
            findRowJoined bs equity_patterns "权益",
            findRowJoined ist ratio_profit_patterns "利润" with
      | some arow, some erow, some prow =>
        let entries := common.filterMap (ratioProcessDate bs ist arow erow prow)
        if entries.isEmpty then none else some entries
      | _, _, _ => none

/-! The download loop download_financial_reports (lines 79-129). -/

/-- The running state of the download loop: the statements obtained so
far, the success counter, the statement types whose fetch raised (each
reported by name at line 114), and those that returned no data. -/
structure DownloadState where
  reportData : List (String × DataFrame)
  successfulDownloads : ℕ
  failed : List String
  noData : List String
  deriving DecidableEq, Repr

/-- The three statement types fetched in order (line 78). -/
def report_types : List String := ["资产负债表", "利润表", "现金流量表"]

/-- download_financial_reports (lines 79-129) with the provider fetch
as a parameter: each statement type is fetched inside its own
try/except, a raising fetch only records the failure by name, an empty
result only records a warning, and the operation returns the collected
statements when at least one succeeded (None otherwise). -/
def download_financial_reports (fetch : String → Except String DataFrame) :
    DownloadState × Option (List (String × DataFrame)) :=
  let final := report_types.foldl (fun acc rt =>
    match fetch rt with
    | .error _ => { acc with failed := acc.failed ++ [rt] }
    | .ok df =>
      if df.isEmpty then { acc with noData := acc.noData ++ [rt] }
      else { acc with reportData := acc.reportData ++ [(rt, df)],
                      successfulDownloads := acc.successfulDownloads + 1 })
    ⟨[], 0, [], []⟩
  (final, if final.successfulDownloads > 0 then some final.reportData else none)

/-! Concrete tables used by the claim checks. -/

/-- A table the detection classifies as transposed whose single item
column is itself labelled by a date string. -/
def c1T : DataFrame :=
  mkDF [.str "A", .str "20221231"] [[.str "20231231", .num 100]]

/-- A standard income statement: item column plus two period columns. -/
def c1Std : DataFrame :=
  mkDF [.str "项目", .str "20231231", .str "20221231"]
    [[.str "营业总收入", .num 1000, .num 800],
     [.str "净利润", .num 200, .num 150]]

/-- A balance sheet with total-assets and equity rows for one period. -/
def c2bs : DataFrame :=
  mkDF [.str "项目", .str "20231231"]
    [[.str "资产总计", .num 1000000000],
     [.str "股东权益", .num 500000000]]

/-- An income statement whose 利润总额 row precedes its 净利润 row. -/
def c2is : DataFrame :=
  mkDF [.str "项目", .str "20231231"]
    [[.str "利润总额", .num 200000000],
     [.str "净利润", .num 300000000]]

/-- An income statement whose 主营业务收入 row precedes its 营业收入
row. -/
def c2mT : DataFrame :=
  mkDF [.str "项目", .str "20231231"]
    [[.str "主营业务收入", .num 7],
     [.str "营业收入", .num 9],
     [.str "净利润", .num 1]]

/-- An income statement carrying both a 项目 and a 日期 column, which
sends the extractor through its 日期-column branch. -/
def c4T : DataFrame :=
  mkDF [.str "项目", .str "日期"]
    [[.str "营业收入", .str "2023-12-31"],
     [.str "净利润", .str "2022-12-31"]]

/-- A balance sheet whose total assets are exactly zero. -/
def c5bs : DataFrame :=
  mkDF [.str "项目", .str "20231231"]
    [[.str "资产总计", .num 0],
     [.str "股东权益", .num 500000000]]

/-- An income statement with a nonzero net profit. -/
def c5is : DataFrame :=
  mkDF [.str "项目", .str "20231231"]
    [[.str "净利润", .num 200000000]]

/-- A transposed table: date-valued first column, item-named columns. -/
def c7T : DataFrame :=
  mkDF [.str "A", .str "营业收入", .str "净利润"]
    [[.str "20231231", .num 100, .num 50],
     [.str "20221231", .num 80, .num 30]]

/-- A long-shaped table with a date column and an item column but no
value column. -/
def c8T : DataFrame :=
  mkDF [.str "REPORT_DATE", .str "项目"]
    [[.str "20231231", .str "营业收入"]]

/-- A table whose only column is the date column. -/
def c8Lone : DataFrame :=
  mkDF [.str "REPORT_DATE"] [[.str "20231231"]]

/-- A one-row statement used as a successful fetch result. -/
def c9DF : DataFrame := mkDF [.str "项目"] [[.str "营业收入"]]

/-- A fetch in which exactly the income statement raises. -/
def c9Fetch : String → Except String DataFrame := fun rt =>
  if rt = "利润表" then .error "网络错误" else .ok c9DF

/-- A table with no date-named column whose first-column values are
all missing. -/
def c10T : DataFrame :=
  mkDF [.str "A", .str "营业收入"] [[.null, .num 5]]

/-! Helper lemmas. -/

/-- The standard branch of the normalizer returns its input frame
unchanged. -/
theorem convert_standard (df : DataFrame)
    (h : detect_shape df = Shape.standard) :
    convert_em_to_sina_format df = df := by
  unfold convert_em_to_sina_format
  rw [h]

/-- The transposed branch of the normalizer applies the transpose. -/
theorem convert_transposed (df : DataFrame)
    (h : detect_shape df = Shape.transposed) :
    convert_em_to_sina_format df = transposedTransform df := by
  unfold convert_em_to_sina_format
  rw [h]

/-- The leading cells of the transposed rows are the original column
labels. -/
theorem transposeRows_heads (rows : List (List Cell)) :
    ∀ (cs : List Cell) (j : ℕ),
      (transposeRows rows cs j).map (fun r => r.getD 0 Cell.null) = cs := by
  intro cs
  induction cs with
  | nil => intro j; rfl
  | cons c rest ih =>
    intro j
    simp only [transposeRows, List.map_cons, List.getD_cons_zero]
    rw [ih]

/-- Membership is preserved by insertion into a sorted row list. -/
theorem mem_insertDesc (x y : Option ℕ × (Cell × Cell × Cell))
    (l : List (Option ℕ × (Cell × Cell × Cell)))
    (h : y ∈ insertDesc x l) : y = x ∨ y ∈ l := by
  induction l with
  | nil => simpa [insertDesc] using h
  | cons a t ih =>
    unfold insertDesc at h
    by_cases hc : keyGt x.1 a.1
    · rw [if_pos hc] at h
      rcases List.mem_cons.mp h with h | h
      · exact Or.inl h
      · exact Or.inr h
    · rw [if_neg hc] at h
      rcases List.mem_cons.mp h with h | h
      · exact Or.inr (by simp [h])
      · rcases ih h with h2 | h2
        · exact Or.inl h2
        · exact Or.inr (List.mem_cons_of_mem _ h2)

/-- Membership is preserved by the descending sort. -/
theorem mem_sortDesc (y : Option ℕ × (Cell × Cell × Cell))
    (l : List (Option ℕ × (Cell × Cell × Cell)))
    (h : y ∈ sortDesc l) : y ∈ l := by
  induction l with
  | nil => simp [sortDesc] at h
  | cons a t ih =>
    unfold sortDesc at h
    rcases mem_insertDesc a y (sortDesc t) h with h2 | h2
    · simp [h2]
    · exact List.mem_cons_of_mem _ (ih h2)

/-! Claim C1. -/

/-- Claim C1, counterexample: the table c1T is detected as transposed,
yet normalizing it twice differs from normalizing it once, because the
normalized output again has an all-date first column and is transposed
back; the claimed idempotence over every table of the three detected
shapes fails. -/
theorem c1_counterexample :
    detect_shape c1T = Shape.transposed ∧
      convert_em_to_sina_format (convert_em_to_sina_format c1T) ≠
        convert_em_to_sina_format c1T := by
  constructor
  · decide
  · decide

/-- Claim C1, amended: normalization is idempotent on every table it
detects as standard (such a table is returned unchanged), and on every
table whose normalized output is again detected as standard; a table
whose normalized output re-triggers the long or transposed detection,
such as c1T, escapes the idempotence. -/
theorem c1_normalize_idempotent_on_standard_output (df : DataFrame) :
    (detect_shape df = Shape.standard →
      convert_em_to_sina_format df = df) ∧
    (detect_shape (convert_em_to_sina_format df) = Shape.standard →
      convert_em_to_sina_format (convert_em_to_sina_format df) =
        convert_em_to_sina_format df) := by
  exact ⟨fun h => convert_standard df h,
         fun h => convert_standard (convert_em_to_sina_format df) h⟩

/-- Claim C1, witness: the standard table c1Std is returned unchanged
and normalizing it twice equals normalizing it once. -/
theorem c1_witness :
    convert_em_to_sina_format c1Std = c1Std ∧
      convert_em_to_sina_format (convert_em_to_sina_format c1Std) =
        convert_em_to_sina_format c1Std := by
  exact ⟨(c1_normalize_idempotent_on_standard_output c1Std).1 (by decide),
         (c1_normalize_idempotent_on_standard_output c1Std).2 (by decide)⟩

/-! Claim C2. -/

/-- Claim C2, counterexample: on a balance sheet with 资产总计 and
股东权益 rows and an income statement whose 利润总额 row precedes its
净利润 row, the ratio calculator uses the 利润总额 figure (200000000,
the first row matching the joined keyword alternation), not the
净利润 figure (300000000) the claimed tiering would require. -/
theorem c2_counterexample :
    get_financial_ratios c2bs c2is =
      some [{ date := "20231231",
              totalAssets := 1000000000 / 100000000,
              netEquity := 500000000 / 100000000,
              netProfit := 200000000 / 100000000,
              roa := some (200000000 / 1000000000 * 100),
              roe := some (200000000 / 500000000 * 100) }] ∧
    (200000000 : ℚ) / 100000000 ≠ 300000000 / 100000000 := by
  exact ⟨rfl, by norm_num⟩

/-- Claim C2, amended: the metrics extractor is tiered per pattern, so
a row matching the first pattern 营业收入 wins over any earlier row
matching only a later pattern such as 主营业务收入; the ratio
calculator, however, is not tiered over its specific keywords: 净利润
and 利润总额 sit in one joined alternation whose first matching row in
table order wins (an earlier 利润总额 row beats a later 净利润 row),
and only the bare fallback keyword forms a second tier. -/
theorem c2_lookup_precedence (dfm : DataFrame) (pcol : Cell)
    (rm : List Cell) (dfr : DataFrame) (rr : List Cell)
    (h1 : dfm.rows.find? (fun r =>
      cellContains (r.getD ((colIdx dfm.cols pcol).getD 0) .null) "营业收入") =
        some rm)
    (h2 : dfr.rows.find? (fun r =>
      ratio_profit_patterns.any (fun p => cellContains (r.getD 0 .null) p)) =
        some rr) :
    findRowTiered dfm pcol revenue_patterns = some rm ∧
    findRowJoined dfr ratio_profit_patterns "利润" = some rr := by
  constructor
  · unfold findRowTiered revenue_patterns
    simp only [List.findSome?_cons, h1]
  · unfold findRowJoined
    rw [h2]

/-- Claim C2, witness: on a table whose 主营业务收入 row precedes its
营业收入 row the metrics lookup returns the 营业收入 row, while on the
income statement c2is the ratio lookup returns the earlier 利润总额
row. -/
theorem c2_witness :
    findRowTiered c2mT (Cell.str "项目") revenue_patterns =
      some [Cell.str "营业收入", Cell.num 9] ∧
    findRowJoined c2is ratio_profit_patterns "利润" =
      some [Cell.str "利润总额", Cell.num 200000000] := by
  exact c2_lookup_precedence c2mT (Cell.str "项目")
    [Cell.str "营业收入", Cell.num 9] c2is
    [Cell.str "利润总额", Cell.num 200000000] (by decide) (by decide)

/-! Claim C3. -/

/-- Claim C3, counterexample: in the metrics-extraction path the
per-cell coercion is pd.to_numeric, which does not strip thousands
separators, so the comma-formatted string maps to the missing value
instead of the claimed 1234.50. -/
theorem c3_counterexample :
    toNumericCoerce (Cell.str "1,234.50") ≠ some ((1234.5 : ℚ)) ∧
      toNumericCoerce (Cell.str "1,234.50") = none := by
  constructor
  · decide
  · decide

/-- Claim C3, amended: both per-cell coercions are total and map the
dash placeholder, the empty string and the missing value to no value,
never zero; but only the ratio path strips commas, mapping the
comma-formatted string to 1234.50, while the metrics path
(pd.to_numeric) maps it to the missing value. -/
theorem c3_coercion_behaviour :
    ratioCoerce (Cell.str "1,234.50") = some ((1234 : ℚ) + 50 / 10 ^ 2) ∧
    ((1234 : ℚ) + 50 / 10 ^ 2 = 1234.5) ∧
    toNumericCoerce (Cell.str "1,234.50") = none ∧
    toNumericCoerce (Cell.str "-") = none ∧
    toNumericCoerce (Cell.str "") = none ∧
    toNumericCoerce Cell.null = none ∧
    ratioCoerce (Cell.str "-") = none ∧
    ratioCoerce (Cell.str "") = none ∧
    ratioCoerce Cell.null = none := by
  refine ⟨rfl, by norm_num, by decide, by decide, by decide, by decide,
    by decide, by decide, by decide⟩

/-! Claim C4. -/

/-- A member of the sorted revenue column was a member of the revenue
column before sorting. -/
theorem metricsSort_rev_mem (dates rev prof : List Cell) (c : Cell)
    (h : c ∈ (metricsSort dates rev prof).2.1) : c ∈ rev := by
  simp only [metricsSort, List.mem_map] at h
  obtain ⟨t, ⟨kt, hkt, rfl⟩, rfl⟩ := h
  have hk := mem_sortDesc kt _ hkt
  simp only [List.mem_map] at hk
  obtain ⟨u, hu, rfl⟩ := hk
  obtain ⟨u1, u2⟩ := u
  obtain ⟨v1, v2⟩ := u2
  exact (List.of_mem_zip (List.of_mem_zip hu).2).1

/-- A member of the sorted profit column was a member of the profit
column before sorting. -/
theorem metricsSort_prof_mem (dates rev prof : List Cell) (c : Cell)
    (h : c ∈ (metricsSort dates rev prof).2.2) : c ∈ prof := by
  simp only [metricsSort, List.mem_map] at h
  obtain ⟨t, ⟨kt, hkt, rfl⟩, rfl⟩ := h
  have hk := mem_sortDesc kt _ hkt
  simp only [List.mem_map] at hk
  obtain ⟨u, hu, rfl⟩ := hk
  obtain ⟨u1, u2⟩ := u
  obtain ⟨v1, v2⟩ := u2
  exact (List.of_mem_zip (List.of_mem_zip hu).2).2

/-- Every revenue cell kept by the non-日期 branch is numeric. -/
theorem metricsElseBranch_rev_num (df : DataFrame) (pcol : Cell)
    (rrow prow : List Cell) (c : Cell)
    (h : c ∈ (metricsElseBranch df pcol rrow prow).2.1) :
    ∃ q, c = Cell.num q := by
  simp only [metricsElseBranch, List.mem_map] at h
  obtain ⟨t, ht, rfl⟩ := h
  rw [List.mem_filterMap] at ht
  obtain ⟨a, _, hfa⟩ := ht
  rcases h1 : toNumericCoerce (lookupRow df.cols rrow a) with _ | qa
  · rw [h1] at hfa
    simp at hfa
  · rw [h1] at hfa
    rcases h2 : toNumericCoerce (lookupRow df.cols prow a) with _ | qb
    · rw [h2] at hfa
      simp at hfa
    · rw [h2] at hfa
      have ht2 := Option.some.inj hfa
      subst ht2
      exact ⟨qa, rfl⟩

/-- Every profit cell kept by the non-日期 branch is numeric. -/
theorem metricsElseBranch_prof_num (df : DataFrame) (pcol : Cell)
    (rrow prow : List Cell) (c : Cell)
    (h : c ∈ (metricsElseBranch df pcol rrow prow).2.2) :
    ∃ q, c = Cell.num q := by
  simp only [metricsElseBranch, List.mem_map] at h
  obtain ⟨t, ht, rfl⟩ := h
  rw [List.mem_filterMap] at ht
  obtain ⟨a, _, hfa⟩ := ht
  rcases h1 : toNumericCoerce (lookupRow df.cols rrow a) with _ | qa
  · rw [h1] at hfa
    simp at hfa
  · rw [h1] at hfa
    rcases h2 : toNumericCoerce (lookupRow df.cols prow a) with _ | qb
    · rw [h2] at hfa
      simp at hfa
    · rw [h2] at hfa
      have ht2 := Option.some.inj hfa
      subst ht2
      exact ⟨qb, rfl⟩

/-- pd.to_numeric leaves a numeric cell unchanged. -/
theorem toNumericCell_num (q : ℚ) : toNumericCell (Cell.num q) = Cell.num q :=
  rfl

/-- Claim C4, counterexample: on the statement c4T, which carries a
日期 column, the extractor returns a two-row series whose revenue and
net-profit entries are all missing (the row Series are aligned against
the integer row index, where every label misses), so the non-null
invariant fails on the 日期-column branch. -/
theorem c4_counterexample :
    get_financial_metrics c4T =
      some ([Cell.null, Cell.null], [Cell.null, Cell.null],
        [Cell.date 20231231, Cell.date 20221231]) ∧
    ¬ (∀ c ∈ ([Cell.null, Cell.null] : List Cell), ∃ q, c = Cell.num q) := by
  refine ⟨rfl, fun hall => ?_⟩
  obtain ⟨q, hq⟩ := hall Cell.null (by simp)
  simp at hq

/-- Claim C4, amended: when the extractor succeeds through the branch
taken in the absence of a 日期 column, every revenue and every
net-profit entry of the returned series is numeric (periods failing
either coercion are dropped); on the 日期-column branch no filtering
happens and missing entries survive, as the counterexample shows. -/
theorem c4_nonnull_off_date_branch (df : DataFrame)
    (rev prof dates : List Cell)
    (hm : get_financial_metrics df = some (rev, prof, dates))
    (hd : (metricsPrep df).1.cols.any (fun c => c = Cell.str "日期") = false) :
    (∀ c ∈ rev, ∃ q, c = Cell.num q) ∧
    (∀ c ∈ prof, ∃ q, c = Cell.num q) := by
  simp only [get_financial_metrics] at hm
  by_cases hE : df.isEmpty
  · rw [hE] at hm
    simp at hm
  · rw [Bool.not_eq_true] at hE
    rw [hE] at hm
    simp only [Bool.false_eq_true, if_false, hd] at hm
    rcases hr : findRowTiered (metricsPrep df).1 (metricsPrep df).2
        revenue_patterns with _ | rrow <;> rw [hr] at hm
    · simp at hm
    · rcases hp : findRowTiered (metricsPrep df).1 (metricsPrep df).2
          profit_patterns with _ | prow <;> rw [hp] at hm
      · simp at hm
      · dsimp only at hm
        rcases hde : (metricsElseBranch (metricsPrep df).1 (metricsPrep df).2
            rrow prow).1.isEmpty <;> rw [hde] at hm
        · simp only [Bool.false_eq_true, if_false, Option.some.injEq,
            Prod.mk.injEq] at hm
          obtain ⟨h1, h2, h3⟩ := hm
          constructor
          · intro c hc
            rw [← h1] at hc
            have hpre := metricsSort_rev_mem _ _ _ c hc
            rw [List.mem_map] at hpre
            obtain ⟨x, hx, rfl⟩ := hpre
            obtain ⟨q, rfl⟩ := metricsElseBranch_rev_num _ _ _ _ x hx
            exact ⟨q, rfl⟩
          · intro c hc
            rw [← h2] at hc
            have hpre := metricsSort_prof_mem _ _ _ c hc
            rw [List.mem_map] at hpre
            obtain ⟨x, hx, rfl⟩ := hpre
            obtain ⟨q, rfl⟩ := metricsElseBranch_prof_num _ _ _ _ x hx
            exact ⟨q, rfl⟩
        · simp at hm

/-- Claim C4, witness: on the standard statement c1Std the extractor
returns numeric revenue and profit columns throughout. -/
theorem c4_witness :
    (∀ c ∈ ([Cell.num 1000, Cell.num 800] : List Cell),
      ∃ q, c = Cell.num q) ∧
    (∀ c ∈ ([Cell.num 200, Cell.num 150] : List Cell),
      ∃ q, c = Cell.num q) := by
  exact c4_nonnull_off_date_branch c1Std
    [Cell.num 1000, Cell.num 800] [Cell.num 200, Cell.num 150]
    [Cell.date 20231231, Cell.date 20221231] rfl (by decide)

/-! Claim C5. -/

/-- An entry built by ratioEntryOf stores None ROA when its total
assets are zero and None ROE when its net equity is zero. -/
theorem ratioEntryOf_zero_denominators (d : String) (av ev pv : Cell)
    (entry : RatioEntry) (h : ratioEntryOf d av ev pv = some entry) :
    (entry.totalAssets = 0 → entry.roa = none) ∧
    (entry.netEquity = 0 → entry.roe = none) := by
  unfold ratioEntryOf at h
  by_cases hnn : av ≠ Cell.null ∧ ev ≠ Cell.null ∧ pv ≠ Cell.null
  · rw [if_pos hnn] at h
    rcases hta : ratioCoerce av with _ | ta
    · rw [hta] at h
      simp at h
    · rw [hta] at h
      rcases hne : ratioCoerce ev with _ | nequity
      · rw [hne] at h
        simp at h
      · rw [hne] at h
        rcases hnp : ratioCoerce pv with _ | nprofit
        · rw [hnp] at h
          simp at h
        · rw [hnp] at h
          have hrec := Option.some.inj h
          subst hrec
          constructor
          · intro h0
            dsimp only at h0 ⊢
            have hta0 : ta = 0 := by
              rcases div_eq_zero_iff.mp h0 with h2 | h2
              · exact h2
              · exact absurd h2 (by norm_num)
            rw [if_neg (by simp [hta0])]
          · intro h0
            dsimp only at h0 ⊢
            have hne0 : nequity = 0 := by
              rcases div_eq_zero_iff.mp h0 with h2 | h2
              · exact h2
              · exact absurd h2 (by norm_num)
            rw [if_neg (by simp [hne0])]
  · rw [if_neg hnn] at h
    simp at h

/-- A successful per-period entry always comes from ratioEntryOf. -/
theorem ratioProcessDate_some (balance_sheet income_statement : DataFrame)
    (arow erow prow : List Cell) (d : String) (entry : RatioEntry)
    (h : ratioProcessDate balance_sheet income_statement arow erow prow d =
      some entry) :
    ∃ av ev pv, ratioEntryOf d av ev pv = some entry := by
  unfold ratioProcessDate at h
  rcases hbi : (((balance_sheet.cols.drop 1).map pyStr).findIdx?
      (fun x => x = d)) with _ | bi
  · rw [hbi] at h
    exact absurd h (by simp)
  · rcases hii : (((income_statement.cols.drop 1).map pyStr).findIdx?
        (fun x => x = d)) with _ | ii
    · rw [hbi, hii] at h
      exact absurd h (by simp)
    · rw [hbi, hii] at h
      exact ⟨_, _, _, h⟩

/-- Claim C5: whenever the three figure rows are located, a common
period whose three raw cells are present and float-convertible is
included in the ratio series, and its ROA is None when the coerced
total assets are exactly zero, symmetrically its ROE is None when the
coerced net equity is exactly zero — no division error and no
infinity. -/
theorem c5_zero_denominator_null
    (balance_sheet income_statement : DataFrame)
    (arow erow prow : List Cell) (d : String) (entry : RatioEntry)
    (h1 : balance_sheet.isEmpty = false)
    (h2 : income_statement.isEmpty = false)
    (ha : findRowJoined (ratioPrep balance_sheet) asset_patterns "资产" =
      some arow)
    (he : findRowJoined (ratioPrep balance_sheet) equity_patterns "权益" =
      some erow)
    (hp : findRowJoined (ratioPrep income_statement) ratio_profit_patterns
      "利润" = some prow)
    (hd : d ∈ ratiosCommonDates (ratioPrep balance_sheet)
      (ratioPrep income_statement))
    (hpd : ratioProcessDate (ratioPrep balance_sheet)
      (ratioPrep income_statement) arow erow prow d = some entry) :
    ∃ es, get_financial_ratios balance_sheet income_statement = some es ∧
      entry ∈ es ∧
      (entry.totalAssets = 0 → entry.roa = none) ∧
      (entry.netEquity = 0 → entry.roe = none) := by
  have hMem : entry ∈ (ratiosCommonDates (ratioPrep balance_sheet)
      (ratioPrep income_statement)).filterMap
        (ratioProcessDate (ratioPrep balance_sheet)
          (ratioPrep income_statement) arow erow prow) :=
    List.mem_filterMap.mpr ⟨d, hd, hpd⟩
  have hCommonNe : (ratiosCommonDates (ratioPrep balance_sheet)
      (ratioPrep income_statement)).isEmpty = false := by
    cases hc : ratiosCommonDates (ratioPrep balance_sheet)
        (ratioPrep income_statement) with
    | nil => rw [hc] at hd; exact absurd hd (List.not_mem_nil d)
    | cons a t => rfl
  have hEntriesNe : ((ratiosCommonDates (ratioPrep balance_sheet)
      (ratioPrep income_statement)).filterMap
        (ratioProcessDate (ratioPrep balance_sheet)
          (ratioPrep income_statement) arow erow prow)).isEmpty = false := by
    cases he2 : (ratiosCommonDates (ratioPrep balance_sheet)
        (ratioPrep income_statement)).filterMap
          (ratioProcessDate (ratioPrep balance_sheet)
            (ratioPrep income_statement) arow erow prow) with
    | nil => rw [he2] at hMem; exact absurd hMem (List.not_mem_nil entry)
    | cons a t => rfl
  have hMain : get_financial_ratios balance_sheet income_statement =
      some ((ratiosCommonDates (ratioPrep balance_sheet)
        (ratioPrep income_statement)).filterMap
          (ratioProcessDate (ratioPrep balance_sheet)
            (ratioPrep income_statement) arow erow prow)) := by
    unfold get_financial_ratios
    rw [h1, h2]
    simp only [Bool.or_self, Bool.false_eq_true, if_false]
    rw [ha, he, hp, hCommonNe]
    simp only [Bool.false_eq_true, if_false, hEntriesNe]
  obtain ⟨av, ev, pv, hof⟩ := ratioProcessDate_some _ _ _ _ _ _ _ hpd
  have hzz := ratioEntryOf_zero_denominators d av ev pv entry hof
  exact ⟨_, hMain, hMem, hzz.1, hzz.2⟩

/-- Claim C5, witness: with zero total assets, nonzero equity and
nonzero profit for the period 20231231, the period is included with
ROA None and ROE computed. -/
theorem c5_witness :
    ∃ es, get_financial_ratios c5bs c5is = some es ∧
      ({ date := "20231231",
         totalAssets := 0 / 100000000,
         netEquity := 500000000 / 100000000,
         netProfit := 200000000 / 100000000,
         roa := none,
         roe := some (200000000 / 500000000 * 100) } : RatioEntry) ∈ es ∧
      (({ date := "20231231",
          totalAssets := 0 / 100000000,
          netEquity := 500000000 / 100000000,
          netProfit := 200000000 / 100000000,
          roa := none,
          roe := some (200000000 / 500000000 * 100) } :
            RatioEntry).totalAssets = 0 →
        ({ date := "20231231",
           totalAssets := 0 / 100000000,
           netEquity := 500000000 / 100000000,
           netProfit := 200000000 / 100000000,
           roa := none,
           roe := some (200000000 / 500000000 * 100) } :
             RatioEntry).roa = none) ∧
      (({ date := "20231231",
          totalAssets := 0 / 100000000,
          netEquity := 500000000 / 100000000,
          netProfit := 200000000 / 100000000,
          roa := none,
          roe := some (200000000 / 500000000 * 100) } :
            RatioEntry).netEquity = 0 →
        ({ date := "20231231",
           totalAssets := 0 / 100000000,
           netEquity := 500000000 / 100000000,
           netProfit := 200000000 / 100000000,
           roa := none,
           roe := some (200000000 / 500000000 * 100) } :
             RatioEntry).roe = none) := by
  exact c5_zero_denominator_null c5bs c5is
    [Cell.str "资产总计", Cell.num 0]
    [Cell.str "股东权益", Cell.num 500000000]
    [Cell.str "净利润", Cell.num 200000000]
    "20231231" _ (by decide) (by decide) rfl rfl rfl (by decide) rfl

/-! Claim C6. -/

/-- Claim C6: in the growth series over ascending-ordered values the
earliest period has no growth value, and each later position holds the
percentage change from the previous value when that value is nonzero
and no value (not infinity, not an error) when it is exactly zero. -/
theorem c6_growth_series (vals : List ℚ) (i : ℕ)
    (h : i + 1 < vals.length) :
    (growth_series vals).getD 0 (some 0) = none ∧
    (vals.getD i 0 = 0 →
      (growth_series vals).getD (i + 1) (some 0) = none) ∧
    (vals.getD i 0 ≠ 0 →
      (growth_series vals).getD (i + 1) (some 0) =
        some ((vals.getD (i + 1) 0 / vals.getD i 0 - 1) * 100)) := by
  have hi : i < vals.length - 1 := by omega
  have hmain : (growth_series vals).getD (i + 1) (some 0) =
      (if vals.getD i 0 ≠ 0 then
        some ((vals.getD (i + 1) 0 / vals.getD i 0 - 1) * 100)
      else none) := by
    unfold growth_series
    rw [List.getD_cons_succ]
    rw [List.getD_eq_getElem?_getD, List.getElem?_map, List.getElem?_range hi]
    rfl
  refine ⟨rfl, ?_, ?_⟩
  · intro h0
    rw [hmain, if_neg (by simpa using h0)]
  · intro h0
    rw [hmain, if_pos h0]

/-- Claim C6, witness: for values 100, 0, 50 the growth at the last
period (base zero) is none, and the growth at the middle period is
minus one hundred percent. -/
theorem c6_witness :
    ((growth_series [100, 0, 50]).getD 0 (some 0) = none ∧
      (([100, 0, 50] : List ℚ).getD 1 0 = 0 →
        (growth_series [100, 0, 50]).getD 2 (some 0) = none) ∧
      (([100, 0, 50] : List ℚ).getD 1 0 ≠ 0 →
        (growth_series [100, 0, 50]).getD 2 (some 0) =
          some ((([100, 0, 50] : List ℚ).getD 2 0 /
            ([100, 0, 50] : List ℚ).getD 1 0 - 1) * 100))) ∧
    (growth_series [100, 0, 50]).getD 1 (some 0) =
      some ((((0 : ℚ)) / 100 - 1) * 100) := by
  exact ⟨c6_growth_series [100, 0, 50] 1 (by decide), rfl⟩

/-! Claim C7. -/

/-- Claim C7: a table with no date-named column whose sampled
first-column values all match the date pattern is transposed: the
normalizer sets the first column as index, transposes, resets the
index and renames it 项目, so the output has the former column labels
(the item names) as its first column and the former first-column dates
as its remaining column labels. -/
theorem c7_transposed_transform (df : DataFrame)
    (h : detect_shape df = Shape.transposed) :
    convert_em_to_sina_format df = transposedTransform df ∧
    (convert_em_to_sina_format df).cols = Cell.str "项目" :: firstColVals df ∧
    firstColVals (convert_em_to_sina_format df) = df.cols.drop 1 := by
  have h1 := convert_transposed df h
  refine ⟨h1, by rw [h1]; rfl, ?_⟩
  rw [h1]
  unfold firstColVals transposedTransform
  exact transposeRows_heads df.rows (df.cols.drop 1) 1

/-- Claim C7, witness: the two-date table c7T is detected as
transposed, its normalized first column is the item names and its
normalized column labels are 项目 followed by the two dates. -/
theorem c7_witness :
    convert_em_to_sina_format c7T = transposedTransform c7T ∧
    (convert_em_to_sina_format c7T).cols =
      Cell.str "项目" :: firstColVals c7T ∧
    firstColVals (convert_em_to_sina_format c7T) = c7T.cols.drop 1 := by
  exact c7_transposed_transform c7T (by decide)

/-! Claim C8. -/

/-- Claim C8, counterexample: for the long-shaped table c8T, whose
date column and item column leave no value column to pivot, the
normalizer does not return an empty table: it returns the non-empty
single-column table of item names. -/
theorem c8_counterexample :
    convert_em_to_sina_format c8T =
      ⟨[Cell.str "项目"], [Cell.num 0], [[Cell.str "营业收入"]]⟩ ∧
    (convert_em_to_sina_format c8T).isEmpty = false := by
  constructor
  · decide
  · decide

/-- Claim C8, amended: the normalizer returns an empty table for empty
input and for a long-shaped table in which no item column can be
chosen (the date column is the only column); but when an item column
exists and only a value column is missing it returns the non-empty
item-name column instead of an empty table. -/
theorem c8_ambiguous_empty (df : DataFrame)
    (h1 : detect_shape df = Shape.long)
    (h2 : longItemCol df = none) :
    convert_em_to_sina_format df = emptyDF ∧
      convert_em_to_sina_format emptyDF = emptyDF := by
  constructor
  · unfold convert_em_to_sina_format
    rw [h1]
    unfold longTransform
    rw [h2]
  · decide

/-- Claim C8, witness: the table whose only column is the date column
normalizes to the empty table, as does the empty table itself. -/
theorem c8_witness :
    convert_em_to_sina_format c8Lone = emptyDF ∧
      convert_em_to_sina_format emptyDF = emptyDF := by
  exact c8_ambiguous_empty c8Lone (by decide) (by decide)

/-! Claim C9. -/

/-- Claim C9: when the income-statement fetch raises while the
balance-sheet and cash-flow fetches return non-empty data, the failure
stays at that single statement boundary: the other two statements are
collected in order, the success count is two, and the failed statement
type is reported by name. -/
theorem c9_partial_failure_isolation
    (fetch : String → Except String DataFrame)
    (bsdf cfdf : DataFrame) (e : String)
    (h1 : fetch "资产负债表" = .ok bsdf) (h2 : bsdf.isEmpty = false)
    (h3 : fetch "利润表" = .error e)
    (h4 : fetch "现金流量表" = .ok cfdf) (h5 : cfdf.isEmpty = false) :
    (download_financial_reports fetch).1.successfulDownloads = 2 ∧
    (download_financial_reports fetch).1.failed = ["利润表"] ∧
    (download_financial_reports fetch).2 =
      some [("资产负债表", bsdf), ("现金流量表", cfdf)] := by
  unfold download_financial_reports report_types
  simp only [List.foldl_cons, List.foldl_nil, h1, h3, h4, h2, h5]
  refine ⟨rfl, rfl, rfl⟩

/-- Claim C9, witness: a concrete fetch failing exactly on the income
statement yields a success count of two, the failed statement named,
and both other statements saved. -/
theorem c9_witness :
    (download_financial_reports c9Fetch).1.successfulDownloads = 2 ∧
    (download_financial_reports c9Fetch).1.failed = ["利润表"] ∧
    (download_financial_reports c9Fetch).2 =
      some [("资产负债表", c9DF), ("现金流量表", c9DF)] := by
  exact c9_partial_failure_isolation c9Fetch c9DF c9DF "网络错误"
    rfl (by decide) rfl rfl (by decide)

/-! Claim C10. -/

/-- Claim C10: a non-empty table with no date-named column whose first
five first-column values are all missing passes the transposed date
check vacuously (the all quantifier ranges over an empty filtered
sample), so the normalizer classifies it as transposed and transposes
it although no first-column value is date-like. -/
theorem c10_vacuous_transposed (df : DataFrame)
    (h1 : df.isEmpty = false)
    (h2 : df.cols.any (fun c => c = .str "REPORT_DATE") = false)
    (h3 : (df.cols.filter isDateKwCol).isEmpty = true)
    (h4 : ∀ r ∈ df.rows.take 5, r.getD 0 Cell.null = Cell.null) :
    detect_shape df = Shape.transposed ∧
      convert_em_to_sina_format df = transposedTransform df := by
  have hsv : ∀ v ∈ sampleValues df, v = "nan" := by
    intro v hv
    unfold sampleValues at hv
    obtain ⟨r, hr, rfl⟩ := List.mem_map.mp hv
    rw [h4 r hr]
    rfl
  have hfil : (sampleValues df).filter
      (fun v => !(v = "nan" || v = "None")) = [] := by
    refine List.filter_eq_nil_iff.mpr ?_
    intro a ha
    rw [hsv a ha]
    decide
  have hdet : detect_shape df = Shape.transposed := by
    unfold detect_shape
    rw [h1, h2, h3, hfil]
    rfl
  exact ⟨hdet, convert_transposed df hdet⟩

/-- Claim C10, witness: the table c10T, whose sole first-column value
is missing, is classified as transposed and transposed. -/
theorem c10_witness :
    detect_shape c10T = Shape.transposed ∧
      convert_em_to_sina_format c10T = transposedTransform c10T := by
  exact c10_vacuous_transposed c10T (by decide) (by decide) (by decide)
    (by decide)

end Aksmes
